import Mathlib

/-!
Verification of the render engine of the srtemplate crate
(`src/src/render.rs`): the two entry points `render_nodes` (appending
form) and `render_node` (returning form), embedded shallowly in Lean.
The node data model, the error type and the callable type are declared
in other modules of the crate (`crate::parser`, `crate::error`,
`crate::template`); they are modelled here from the specification, while
the two render functions are translated directly from the source.
-/

namespace SrTemplate

/-- Modelled from the spec: `TemplateNode` (`crate::parser`) is a tagged
union with variants for raw text, quoted string literals, float and
integer literals (each storing their text), a variable reference storing
its name, and a function call storing its name and its ordered list of
argument nodes.  The variant names are the ones the `match` arms of
`src/src/render.rs` use. -/
inductive TemplateNode where
  | RawText (text : String)
  | String (text : String)
  | Float (text : String)
  | Number (text : String)
  | Variable (name : String)
  | Function (name : String) (arguments : List TemplateNode)

/-- Modelled from the spec: `SrTemplateError` (`crate::error`) carries
`VariableNotFound(name)` for a variable absent from `vars`,
`FunctionNotImplemented(name)` for a function absent from `funcs`, and a
variant holding any caller-defined error a registered callable returns,
into which the question-mark operator of `src/src/render.rs` converts
that error with its content unchanged. -/
inductive SrTemplateError where
  | VariableNotFound (name : String)
  | FunctionNotImplemented (name : String)
  | FunctionError (message : String)
  deriving DecidableEq

/-- Modelled from the spec: `TemplateFunction` (`crate::template`) is a
callable receiving the ordered list of already-rendered string arguments
and returning either a string or a function-specific error (modelled as
a string message). -/
abbrev TemplateFunction := List String → Except String String

/-- The variable bindings: `DashMap<Cow<str>, String>` modelled as an
association list from names to string values, looked up by exact name. -/
abbrev Vars := List (String × String)

/-- The function registry: `DashMap<Cow<str>, Box<TemplateFunction>>`
modelled as an association list from names to callables. -/
abbrev Funcs := List (String × TemplateFunction)

mutual

/-- `render_node` from `src/src/render.rs` (lines 68-107): returns the
rendered text of one node.  Literal variants return their stored text;
a variable is looked up in `vars` (miss fails with `VariableNotFound`);
a function call first evaluates all its arguments, then looks up the
function in `funcs` (miss fails with `FunctionNotImplemented`) and
invokes it on the rendered argument strings, converting a callable error
through the question-mark operator. -/
def render_node (node : TemplateNode) (vars : Vars) (funcs : Funcs) :
    Except SrTemplateError String :=
  match node with
  | .RawText text | .String text | .Float text | .Number text => .ok text
  | .Variable name =>
      match List.lookup name vars with
      | none => .error (.VariableNotFound name)
      | some value => .ok value
  | .Function function arguments =>
      match render_args arguments vars funcs with
      | .error e => .error e
      | .ok evaluated_arguments =>
          match List.lookup function funcs with
          | none => .error (.FunctionNotImplemented function)
          | some f =>
              match f evaluated_arguments with
              | .error e => .error (.FunctionError e)
              | .ok result_of_function => .ok result_of_function

/-- The argument evaluation of `src/src/render.rs` lines 86-91:
`arguments.into_iter().map(|arg| render_node(arg, vars, funcs)).collect()`
on `Result` evaluates left to right and stops at the first error. -/
def render_args (arguments : List TemplateNode) (vars : Vars) (funcs : Funcs) :
    Except SrTemplateError (List String) :=
  match arguments with
  | [] => .ok []
  | arg :: rest =>
      match render_node arg vars funcs with
      | .error e => .error e
      | .ok s =>
          match render_args rest vars funcs with
          | .error e => .error e
          | .ok ss => .ok (s :: ss)

end

/-- `render_nodes` from `src/src/render.rs` (lines 24-66): the appending
form.  The Rust function takes `res: &mut String` and returns
`Result<(), SrTemplateError>`; the mutation is made explicit by
returning the buffer after the call together with the result.  Each
early `return Err` of the source leaves the buffer untouched, because
every `res.push_str` in the source comes after all fallible steps of its
arm. -/
def render_nodes (res : String) (node : TemplateNode) (vars : Vars) (funcs : Funcs) :
    String × Except SrTemplateError Unit :=
  match node with
  | .RawText text | .String text | .Float text | .Number text => (res ++ text, .ok ())
  | .Variable name =>
      match List.lookup name vars with
      | none => (res, .error (.VariableNotFound name))
      | some value => (res ++ value, .ok ())
  | .Function function arguments =>
      match render_args arguments vars funcs with
      | .error e => (res, .error e)
      | .ok evaluated_arguments =>
          match List.lookup function funcs with
          | none => (res, .error (.FunctionNotImplemented function))
          | some f =>
              match f evaluated_arguments with
              | .error e => (res, .error (.FunctionError e))
              | .ok result_of_function => (res ++ result_of_function, .ok ())

/-- The caller pattern of the crate (used by its tests and by `render`):
iterate a parsed node sequence, calling the appending form once per
node into one shared buffer, stopping at the first error. -/
def render_sequence (res : String) (nodes : List TemplateNode) (vars : Vars) (funcs : Funcs) :
    String × Except SrTemplateError Unit :=
  match nodes with
  | [] => (res, .ok ())
  | n :: rest =>
      match render_nodes res n vars funcs with
      | (res2, .ok _) => render_sequence res2 rest vars funcs
      | (res2, .error e) => (res2, .error e)

/-! ## Helper lemmas -/

/-- The appending form is the returning form followed by one append:
on success the buffer grows by the rendered string, on failure it is
returned untouched together with the same error. -/
theorem render_nodes_spec (res : String) (node : TemplateNode) (vars : Vars) (funcs : Funcs) :
    render_nodes res node vars funcs =
      match render_node node vars funcs with
      | .ok s => (res ++ s, .ok ())
      | .error e => (res, .error e) := by
  cases node with
  | RawText text => rfl
  | String text => rfl
  | Float text => rfl
  | Number text => rfl
  | Variable name =>
      cases h : List.lookup name vars <;> simp [render_nodes, render_node, h]
  | Function name arguments =>
      cases ha : render_args arguments vars funcs with
      | error e => simp [render_nodes, render_node, ha]
      | ok ev =>
          cases hf : List.lookup name funcs with
          | none => simp [render_nodes, render_node, ha, hf]
          | some f =>
              cases hr : f ev <;> simp [render_nodes, render_node, ha, hf, hr]

/-- Argument collection fails with the error of the leftmost failing
argument: every argument before it renders, the later ones and the
function itself play no role. -/
theorem render_args_error_of_first_bad (vars : Vars) (funcs : Funcs) (e : SrTemplateError)
    (pre : List TemplateNode) (bad : TemplateNode) (post : List TemplateNode)
    (hpre : ∀ a ∈ pre, ∃ s, render_node a vars funcs = .ok s)
    (hbad : render_node bad vars funcs = .error e) :
    render_args (pre ++ bad :: post) vars funcs = .error e := by
  induction pre with
  | nil => simp [render_args, hbad]
  | cons a rest ih =>
      obtain ⟨s, hs⟩ := hpre a (by simp)
      have hrest := ih (fun b hb => hpre b (by simp [hb]))
      simp [render_args, hs, hrest]

/-- Rendering a sequence whose first part fully succeeds continues from
the buffer that part produced. -/
theorem render_sequence_append_of_ok (vars : Vars) (funcs : Funcs)
    (pre rest : List TemplateNode) (res res1 : String)
    (hpre : render_sequence res pre vars funcs = (res1, .ok ())) :
    render_sequence res (pre ++ rest) vars funcs = render_sequence res1 rest vars funcs := by
  induction pre generalizing res with
  | nil =>
      simp [render_sequence] at hpre
      simp [hpre]
  | cons n l ih =>
      rw [render_sequence] at hpre
      rw [List.cons_append, render_sequence]
      cases h : render_nodes res n vars funcs with
      | mk res2 r =>
          cases r with
          | ok u =>
              cases u
              rw [h] at hpre
              exact ih res2 hpre
          | error e =>
              rw [h] at hpre
              simp at hpre

/-! ## Claim theorems -/

/-- C1: for a `Function(name, arguments)` node whose arguments have all
rendered to strings, both `render_node` and `render_nodes` look `name`
up in `funcs` only after that evaluation: on miss they fail with
`FunctionNotImplemented` carrying exactly `name`; on hit they invoke the
callable on the ordered rendered argument strings and either return or
append the string it produces, or propagate the error it returns as the
result of the render. -/
theorem C1_function_dispatch (name : String) (arguments : List TemplateNode)
    (vars : Vars) (funcs : Funcs) (res : String) (rendered : List String)
    (hargs : render_args arguments vars funcs = .ok rendered) :
    (List.lookup name funcs = none →
        render_node (.Function name arguments) vars funcs
          = .error (.FunctionNotImplemented name) ∧
        render_nodes res (.Function name arguments) vars funcs
          = (res, .error (.FunctionNotImplemented name))) ∧
    (∀ f, List.lookup name funcs = some f →
        (∀ s, f rendered = .ok s →
            render_node (.Function name arguments) vars funcs = .ok s ∧
            render_nodes res (.Function name arguments) vars funcs
              = (res ++ s, .ok ())) ∧
        (∀ e, f rendered = .error e →
            render_node (.Function name arguments) vars funcs
              = .error (.FunctionError e) ∧
            render_nodes res (.Function name arguments) vars funcs
              = (res, .error (.FunctionError e)))) := by
  refine ⟨fun h => ?_, fun f hf => ⟨fun s hs => ?_, fun e he => ?_⟩⟩ <;>
    simp [render_node, render_nodes, hargs, *]

/-- Witness for C1 at a concrete registry hit and a concrete miss. -/
theorem C1_function_dispatch_witness :
    render_node (.Function "f" [.RawText "x"]) []
        [("f", fun ss => .ok (String.join ss))] = .ok "x" :=
  (((C1_function_dispatch "f" [.RawText "x"] []
      [("f", fun ss => .ok (String.join ss))] "" ["x"] rfl).2
    (fun ss => .ok (String.join ss)) rfl).1 "x" rfl).1

/-- C2: argument nodes of a function call are evaluated left to right
and the first failure is the result of the whole call, whatever the
arguments to its right and whatever `funcs` holds for the called name:
neither the later arguments nor the function lookup can influence the
outcome. -/
theorem C2_args_short_circuit (name : String) (pre : List TemplateNode)
    (bad : TemplateNode) (post : List TemplateNode) (vars : Vars) (funcs : Funcs)
    (e : SrTemplateError)
    (hpre : ∀ a ∈ pre, ∃ s, render_node a vars funcs = .ok s)
    (hbad : render_node bad vars funcs = .error e) :
    render_node (.Function name (pre ++ bad :: post)) vars funcs = .error e := by
  have h := render_args_error_of_first_bad vars funcs e pre bad post hpre hbad
  simp [render_node, h]

/-- Witness for C2: the second argument fails, so the unregistered
function name and the third argument never matter. -/
theorem C2_args_short_circuit_witness :
    render_node (.Function "f" [.RawText "a", .Variable "missing", .Variable "later"]) [] []
      = .error (.VariableNotFound "missing") :=
  C2_args_short_circuit "f" [.RawText "a"] (.Variable "missing") [.Variable "later"] [] []
    (.VariableNotFound "missing")
    (fun a ha => by
      simp at ha
      exact ha ▸ ⟨"a", rfl⟩)
    rfl

/-- C3: a `Variable(name)` node is resolved by exact lookup in `vars`:
absence fails with `VariableNotFound` carrying exactly `name`, and a
bound value is returned or appended verbatim. -/
theorem C3_variable_lookup (name : String) (vars : Vars) (funcs : Funcs) (res : String) :
    (List.lookup name vars = none →
        render_node (.Variable name) vars funcs = .error (.VariableNotFound name) ∧
        render_nodes res (.Variable name) vars funcs
          = (res, .error (.VariableNotFound name))) ∧
    (∀ v, List.lookup name vars = some v →
        render_node (.Variable name) vars funcs = .ok v ∧
        render_nodes res (.Variable name) vars funcs = (res ++ v, .ok ())) := by
  constructor
  · intro h
    simp [render_node, render_nodes, h]
  · intro v h
    simp [render_node, render_nodes, h]

/-- Witness for C3: a bound name returns its value with surrounding
whitespace and case intact, an unbound name reports itself. -/
theorem C3_variable_lookup_witness :
    render_node (.Variable "x") [("x", "  A b ")] [] = .ok "  A b " ∧
    render_node (.Variable "y") [("x", "  A b ")] []
      = .error (.VariableNotFound "y") :=
  ⟨((C3_variable_lookup "x" [("x", "  A b ")] [] "").2 "  A b " rfl).1,
   ((C3_variable_lookup "y" [("x", "  A b ")] [] "").1 rfl).1⟩

/-- C4: the four literal node kinds render to exactly their stored text
and always succeed, in both entry points. -/
theorem C4_literal_nodes (text : String) (vars : Vars) (funcs : Funcs) (res : String) :
    render_node (.RawText text) vars funcs = .ok text ∧
    render_node (.String text) vars funcs = .ok text ∧
    render_node (.Float text) vars funcs = .ok text ∧
    render_node (.Number text) vars funcs = .ok text ∧
    render_nodes res (.RawText text) vars funcs = (res ++ text, .ok ()) ∧
    render_nodes res (.String text) vars funcs = (res ++ text, .ok ()) ∧
    render_nodes res (.Float text) vars funcs = (res ++ text, .ok ()) ∧
    render_nodes res (.Number text) vars funcs = (res ++ text, .ok ()) := by
  refine ⟨?_, ?_, ?_, ?_, ?_, ?_, ?_, ?_⟩ <;> rfl

/-- C5: nested calls evaluate innermost first: for
`Function(f, [Function(g, [Variable(x)])])` with `x` bound to `v` and
both transforms registered and succeeding, the result is `f` applied to
the string `g` produced from `v`. -/
theorem C5_nested_innermost_first (f g x v s1 s2 : String)
    (gf ff : TemplateFunction) (vars : Vars) (funcs : Funcs)
    (hx : List.lookup x vars = some v)
    (hg : List.lookup g funcs = some gf)
    (hf : List.lookup f funcs = some ff)
    (hgv : gf [v] = .ok s1)
    (hfs : ff [s1] = .ok s2) :
    render_node (.Function f [.Function g [.Variable x]]) vars funcs = .ok s2 := by
  have h1 : render_node (.Variable x) vars funcs = .ok v := by
    simp [render_node, hx]
  have h2 : render_args [TemplateNode.Variable x] vars funcs = .ok [v] := by
    simp [render_args, h1]
  have h3 : render_node (.Function g [.Variable x]) vars funcs = .ok s1 := by
    simp [render_node, h2, hg, hgv]
  have h4 : render_args [TemplateNode.Function g [.Variable x]] vars funcs = .ok [s1] := by
    simp [render_args, h3]
  simp [render_node, h4, hf, hfs]

/-- Witness for C5 with two concrete tagging transforms: the inner tag
ends up inside the outer one. -/
theorem C5_nested_innermost_first_witness :
    render_node (.Function "f" [.Function "g" [.Variable "x"]]) [("x", "V")]
        [("f", fun ss => .ok ("F<" ++ String.join ss ++ ">")),
         ("g", fun ss => .ok ("G<" ++ String.join ss ++ ">"))]
      = .ok "F<G<V>>" :=
  C5_nested_innermost_first "f" "g" "x" "V" "G<V>" "F<G<V>>"
    (fun ss => .ok ("G<" ++ String.join ss ++ ">"))
    (fun ss => .ok ("F<" ++ String.join ss ++ ">"))
    [("x", "V")]
    [("f", fun ss => .ok ("F<" ++ String.join ss ++ ">")),
     ("g", fun ss => .ok ("G<" ++ String.join ss ++ ">"))]
    rfl rfl rfl rfl rfl

/-- C6: rendering a node sequence into one shared buffer keeps the text
committed by the earlier, successful calls when a later node fails: an
unbound variable stops the walk with `VariableNotFound` carrying its
exact name and the buffer still equal to what the earlier nodes
produced. -/
theorem C6_partial_output_intact (vars : Vars) (funcs : Funcs)
    (pre : List TemplateNode) (name : String) (post : List TemplateNode)
    (res res1 : String)
    (hpre : render_sequence res pre vars funcs = (res1, .ok ()))
    (hmiss : List.lookup name vars = none) :
    render_sequence res (pre ++ TemplateNode.Variable name :: post) vars funcs
      = (res1, .error (.VariableNotFound name)) := by
  rw [render_sequence_append_of_ok vars funcs pre _ res res1 hpre]
  rw [render_sequence]
  simp [render_nodes, hmiss]

/-- Witness for C6: the greeting already written stays in the buffer
when the variable after it is unbound. -/
theorem C6_partial_output_intact_witness :
    render_sequence "" [.RawText "Hello ", .Variable "missing", .RawText "!"] [] []
      = ("Hello ", .error (.VariableNotFound "missing")) :=
  C6_partial_output_intact [] [] [.RawText "Hello "] "missing" [.RawText "!"]
    "" "Hello " rfl rfl

/-- C7: rendering is deterministic: the same tree rendered twice against
equal variable bindings and equal registries of pure callables gives
the same result, output and error alike. -/
theorem C7_deterministic (node : TemplateNode) (vars1 vars2 : Vars)
    (funcs1 funcs2 : Funcs) (hv : vars1 = vars2) (hf : funcs1 = funcs2) :
    render_node node vars1 funcs1 = render_node node vars2 funcs2 := by
  rw [hv, hf]

/-- Witness for C7 at a concrete tree and bindings. -/
theorem C7_deterministic_witness :
    render_node (.Function "f" [.Variable "x"]) [("x", "v")]
        [("f", fun ss => .ok (String.join ss))]
      = render_node (.Function "f" [.Variable "x"]) [("x", "v")]
        [("f", fun ss => .ok (String.join ss))] :=
  C7_deterministic (.Function "f" [.Variable "x"]) [("x", "v")] [("x", "v")]
    [("f", fun ss => .ok (String.join ss))]
    [("f", fun ss => .ok (String.join ss))] rfl rfl

/-- C8: the two entry points agree: the appending form succeeds exactly
when the returning form does, fails with the same error otherwise, and
on success leaves the buffer equal to its previous contents followed by
the string the returning form produces. -/
theorem C8_entry_points_agree (node : TemplateNode) (vars : Vars) (funcs : Funcs)
    (res : String) :
    ((render_nodes res node vars funcs).2 = .ok () ↔
        ∃ s, render_node node vars funcs = .ok s) ∧
    (∀ s, render_node node vars funcs = .ok s →
        render_nodes res node vars funcs = (res ++ s, .ok ())) ∧
    (∀ e, render_node node vars funcs = .error e →
        render_nodes res node vars funcs = (res, .error e)) := by
  cases h : render_node node vars funcs with
  | ok s =>
      rw [render_nodes_spec, h]
      simp
  | error e =>
      rw [render_nodes_spec, h]
      simp

/-- Witness for C8: the appending form reproduces a concrete returning
render as an append. -/
theorem C8_entry_points_agree_witness :
    render_nodes "buf" (.Variable "x") [("x", "v")] [] = ("buf" ++ "v", .ok ()) :=
  (C8_entry_points_agree (.Variable "x") [("x", "v")] [] "buf").2.1 "v" rfl

/-- C9: one call of the appending form is atomic for the buffer: when it
returns an error, the buffer is exactly what it was before the call. -/
theorem C9_buffer_atomic (node : TemplateNode) (vars : Vars) (funcs : Funcs)
    (res : String) (e : SrTemplateError)
    (h : (render_nodes res node vars funcs).2 = .error e) :
    (render_nodes res node vars funcs).1 = res := by
  have hs := render_nodes_spec res node vars funcs
  cases hr : render_node node vars funcs with
  | ok s =>
      rw [hr] at hs
      rw [hs] at h
      simp at h
  | error e2 =>
      rw [hr] at hs
      rw [hs]

/-- Witness for C9: a call whose argument did render but whose function
is unregistered leaves the buffer untouched. -/
theorem C9_buffer_atomic_witness :
    (render_nodes "kept" (.Function "f" [.RawText "arg"]) [] []).1 = "kept" :=
  C9_buffer_atomic (.Function "f" [.RawText "arg"]) [] [] "kept"
    (.FunctionNotImplemented "f") rfl

/-- C10: rendering terminates on every finite tree: both entry points
produce a result, `ok` or `error`, the recursion descending only into
the strictly smaller argument subtrees. -/
theorem C10_render_total (node : TemplateNode) (vars : Vars) (funcs : Funcs)
    (res : String) :
    ((∃ s, render_node node vars funcs = .ok s) ∨
        (∃ e, render_node node vars funcs = .error e)) ∧
    ((render_nodes res node vars funcs).2 = .ok () ∨
        (∃ e, (render_nodes res node vars funcs).2 = .error e)) := by
  constructor
  · cases h : render_node node vars funcs with
    | ok s => exact .inl ⟨s, rfl⟩
    | error e => exact .inr ⟨e, rfl⟩
  · cases h : (render_nodes res node vars funcs).2 with
    | ok u => cases u; exact .inl rfl
    | error e => exact .inr ⟨e, rfl⟩

end SrTemplate
